import Mathlib

/-!
Shallow embedding of the quota / activity-accounting subsystem of the
TranscriptFlow repository, together with the slice of the transcription
orchestration handler that the specified scenarios exercise.

Sources embedded:
  * core/plan_manager.py       (PLANS, PlanManager.*)
  * core/session_manager.py    (log_user_activity)
  * core/transcription.py      (transcribe_or_translate_locally)
  * my_page/transcription_4.py (process_transcription_sync, the upload /
                                transcribe-button slice of afficher_page_4)
  * cache/core/utils.py        (chunk_text)

Database rows are lists in an explicit `DB` state; the external engines
(Whisper, the SQLAlchemy commit, the activity-log commit) are oracles passed
as parameters so that both their success and failure paths are represented.
-/

namespace TranscriptFlow

/-! ## Data model (core/database.py, conceptual schema of §6) -/

/-- Row of the `subscriptions` table: plan name and active flag for a user. -/
structure Subscription where
  user_id : Nat
  plan : String
  active : Bool
  deriving Repr, DecidableEq

/-- Row of the `transcriptions` table.  `created_at` is an abstract integer
timestamp; `duration` is the wall-clock processing time recorded by the
handler. -/
structure Transcription where
  user_id : Nat
  filename : String
  duration : Int
  model_used : String
  text : String
  created_at : Int
  deriving Repr, DecidableEq

/-- Row of the `user_activities` table (class `UserActivity`), appended by
`log_user_activity`. -/
structure UserActivity where
  user_id : Nat
  activity_type : String
  details : Option String
  deriving Repr, DecidableEq

/-- The relational store: the three tables the embedded functions touch. -/
structure DB where
  subscriptions : List Subscription
  transcriptions : List Transcription
  activities : List UserActivity
  deriving Repr, DecidableEq

/-! ## Plan catalog (core/plan_manager.py, `PLANS`) -/

/-- Static per-plan quota record (the values of the `PLANS` dict). -/
structure PlanDefinition where
  name : String
  transcription_minutes : Nat
  /-- Integer in the source; carried as a rational because its only use is
  the comparison against the float `size / (1024*1024)`. -/
  max_file_size_mb : ℚ
  gpt_requests : Nat
  models : List String
  tts_characters : Nat
  concurrent_tasks : Nat
  deriving Repr, DecidableEq

/-- `PLANS["free"]`. -/
def freePlan : PlanDefinition :=
  { name := "Gratuit"
    transcription_minutes := 30
    max_file_size_mb := 50
    gpt_requests := 20
    models := ["tiny", "base"]
    tts_characters := 10000
    concurrent_tasks := 1 }

/-- `PLANS["standard"]`. -/
def standardPlan : PlanDefinition :=
  { name := "Standard"
    transcription_minutes := 150
    max_file_size_mb := 200
    gpt_requests := 100
    models := ["tiny", "base", "small", "medium"]
    tts_characters := 50000
    concurrent_tasks := 2 }

/-- `PLANS["premium"]`. -/
def premiumPlan : PlanDefinition :=
  { name := "Premium"
    transcription_minutes := 500
    max_file_size_mb := 500
    gpt_requests := 400
    models := ["tiny", "base", "small", "medium", "large"]
    tts_characters := 200000
    concurrent_tasks := 5 }

/-- The `PLANS` dict as an association list (insertion order of the source). -/
def PLANS : List (String × PlanDefinition) :=
  [("free", freePlan), ("standard", standardPlan), ("premium", premiumPlan)]

/-- Dict lookup `PLANS[name]`, `none` when `name not in PLANS`. -/
def planLookup (plan_name : String) : Option PlanDefinition :=
  (PLANS.find? (fun p => p.1 == plan_name)).map (fun p => p.2)

/-! ## PlanManager (core/plan_manager.py) -/

/-- `PlanManager.get_user_plan`: first active subscription of the user, with
fallback to `PLANS["free"]` when there is none or its plan name is unknown. -/
def get_user_plan (db : DB) (user_id : Nat) : PlanDefinition :=
  match db.subscriptions.find? (fun s => s.user_id == user_id && s.active) with
  | none => freePlan
  | some subscription =>
    match planLookup subscription.plan with
    | none => freePlan
    | some plan => plan

/-- `PlanManager.check_model_access`: membership of the requested model in
the plan's `models` list. -/
def check_model_access (db : DB) (user_id : Nat) (model : String) : Bool :=
  model ∈ (get_user_plan db user_id).models

/-- `PlanManager.check_file_size_limit`: `file_size_mb <= plan["max_file_size_mb"]`.
File sizes are rationals, standing for the Python float `size / (1024*1024)`. -/
def check_file_size_limit (db : DB) (user_id : Nat) (file_size_mb : ℚ) : Bool :=
  file_size_mb ≤ (get_user_plan db user_id).max_file_size_mb

/-- `PlanManager.get_transcription_usage`: count of the user's Transcription
rows with `created_at >= start_of_month`.  The start of the current calendar
month is the explicit parameter `start_of_month`. -/
def get_transcription_usage (db : DB) (user_id : Nat) (start_of_month : Int) : Nat :=
  (db.transcriptions.filter
    (fun t => t.user_id == user_id && start_of_month ≤ t.created_at)).length

/-- `PlanManager.check_transcription_quota`: `usage < plan["transcription_minutes"]`. -/
def check_transcription_quota (db : DB) (user_id : Nat) (start_of_month : Int) : Bool :=
  get_transcription_usage db user_id start_of_month
    < (get_user_plan db user_id).transcription_minutes

/-! ## Activity log (core/session_manager.py, `log_user_activity`) -/

/-- `log_user_activity`: tries to append one `UserActivity` row and commit.
The try block either commits (appending exactly the new row) or raises; the
oracle `commit_raises` says which.  A raised exception is caught: the function
logs it and returns `False`, leaving the store as it was. -/
def log_user_activity (commit_raises : Bool) (db : DB) (user_id : Nat)
    (activity_type : String) (details : Option String) : DB × Bool :=
  if commit_raises then
    (db, false)
  else
    ({ db with activities :=
        db.activities ++ [{ user_id := user_id
                            activity_type := activity_type
                            details := details }] },
     true)

/-! ## Local transcription (core/transcription.py) -/

/-- Result dict of `transcribe_or_translate_locally`:
`{ 'error', 'text', 'segments', 'language' }`.  A segment is the
`(start, end, text)` triple copied from the Whisper result; the `end` key is
rendered as `stop` because `end` is reserved. -/
structure Segment where
  start : ℚ
  stop : ℚ
  text : String
  deriving Repr, DecidableEq

/-- Dict returned by `transcribe_or_translate_locally`. -/
structure TranscriptionResult where
  error : String
  text : String
  segments : List Segment
  language : String
  deriving Repr, DecidableEq

/-- Outcome of the external Whisper calls (`whisper.load_model` +
`model.transcribe`) inside the try block: a successful result, or one of the
exception classes the source catches. -/
inductive WhisperOutcome where
  | success (text : String) (segments : List Segment) (language : String)
  | raisesSSLError (details : String)
  | raisesFileNotFound
  | raisesOther (msg : String)
  deriving Repr, DecidableEq

/-- Prefix of the SSL error message of `transcribe_or_translate_locally`
(the source appends `str(e)` after it). -/
def sslErrorPrefix : String :=
  "Erreur SSL lors du téléchargement/chargement du modèle. Vérifiez vos certificats ou téléchargez manuellement le modèle. Détails: "

/-- `transcribe_or_translate_locally`: empty-path validation, then the
Whisper call with each exception class mapped to its error dict. -/
def transcribe_or_translate_locally (audio_file_path : String)
    (outcome : WhisperOutcome) : TranscriptionResult :=
  if audio_file_path = "" then
    { error := "Erreur: Aucun fichier audio fourni"
      text := "", segments := [], language := "" }
  else
    match outcome with
    | .success text segments language =>
      { error := "", text := text, segments := segments, language := language }
    | .raisesSSLError details =>
      { error := sslErrorPrefix ++ details
        text := "", segments := [], language := "" }
    | .raisesFileNotFound =>
      { error := "Erreur: Fichier audio introuvable."
        text := "", segments := [], language := "" }
    | .raisesOther msg =>
      { error := "Erreur lors de la transcription locale: " ++ msg
        text := "", segments := [], language := "" }

/-! ## Transcription handler slice (my_page/transcription_4.py) -/

/-- Observable side effects of the handler, beyond the database state:
temp-file creation, the engine call, and the Streamlit messages shown to the
user (warning / error / success). -/
inductive Effect where
  | tempFileCreated
  | engineCalled
  | stWarning (msg : String)
  | stError (msg : String)
  | stSuccess (msg : String)
  deriving Repr, DecidableEq

/-- Return value of `process_transcription_sync` together with the effect
trace and the database state it leaves behind. -/
structure SyncResult where
  effects : List Effect
  db : DB
  ok : Bool
  message : String
  deriving Repr, DecidableEq

/-- Message of the empty-input validation branch of
`process_transcription_sync`. -/
def noAudioMsg : String := "Aucun fichier audio fourni."

/-- Success message of `process_transcription_sync`. -/
def transcriptionDoneMsg : String := "Transcription terminée avec succès!"

/-- `process_transcription_sync`: validates that audio bytes are present,
writes them to a temp file, runs `transcribe_or_translate_locally` (the
cached wrapper calls the same function), and on engine success inserts a
`Transcription` row (its own try block: `db_commit_raises` makes the insert a
no-op) and appends an activity entry via `log_user_activity`.  On an engine
error it returns `(False, error)` before any persistence.  Progress-bar and
page-refresh calls are presentation and are not modelled; the temp filename
and the wall-clock duration are abstracted to constants. -/
def process_transcription_sync (db : DB) (user_id : Nat) (audio_data : List Nat)
    (whisper_model : String) (outcome : WhisperOutcome)
    (db_commit_raises : Bool) (log_commit_raises : Bool) (now : Int) : SyncResult :=
  if audio_data = [] then
    { effects := [], db := db, ok := false, message := noAudioMsg }
  else
    let result := transcribe_or_translate_locally "tmp.wav" outcome
    if result.error ≠ "" then
      { effects := [.tempFileCreated, .engineCalled]
        db := db, ok := false, message := result.error }
    else
      let db1 :=
        if db_commit_raises then db
        else { db with transcriptions :=
                db.transcriptions ++
                  [{ user_id := user_id
                     filename := "audio.wav"
                     duration := 0
                     model_used := whisper_model
                     text := result.text
                     created_at := now }] }
      let logged := log_user_activity log_commit_raises db1 user_id
        "transcription" (some ("Modèle: " ++ whisper_model))
      { effects := [.tempFileCreated, .engineCalled]
        db := logged.1, ok := true, message := transcriptionDoneMsg }

/-- Warning shown when an uploaded file exceeds the plan cap (the source
interpolates the size into the text; the numeric rendering is abstracted). -/
def fileSizeWarningMsg : String :=
  "Ce fichier dépasse la limite de votre forfait. Veuillez passer à un forfait supérieur."

/-- Error shown when `check_transcription_quota` fails on the transcribe
button. -/
def quotaExceededMsg : String :=
  "Vous avez atteint votre quota de transcription pour ce mois."

/-- Error shown when the button is pressed with no audio available. -/
def noAudioToTranscribeMsg : String :=
  "Aucun audio à transcrire. Veuillez charger un fichier audio ou extraire depuis YouTube."

/-- Effects and final database of one render of the page slice. -/
structure PageResult where
  effects : List Effect
  db : DB
  deriving Repr, DecidableEq

/-- Upload-and-transcribe slice of `afficher_page_4` (desktop layout, direct
upload source, synchronous path): when a file is uploaded, its size is
checked against the plan cap and a warning is shown on violation — the render
then continues and the bytes are read.  When the transcribe button is
pressed, the quota is checked first; exhaustion short-circuits with
`quotaExceededMsg`, otherwise `process_transcription_sync` runs on the
uploaded bytes and its message is surfaced as success or error. -/
def afficher_page_4_upload (db : DB) (user_id : Nat) (file_size_mb : ℚ)
    (audio_data : List Nat) (whisper_model : String)
    (transcribe_button : Bool) (outcome : WhisperOutcome)
    (db_commit_raises : Bool) (log_commit_raises : Bool)
    (start_of_month : Int) (now : Int) : PageResult :=
  let upload_effects :=
    if check_file_size_limit db user_id file_size_mb then []
    else [Effect.stWarning fileSizeWarningMsg]
  if ¬ transcribe_button then
    { effects := upload_effects, db := db }
  else if ¬ check_transcription_quota db user_id start_of_month then
    { effects := upload_effects ++ [Effect.stError quotaExceededMsg], db := db }
  else if audio_data ≠ [] then
    let r := process_transcription_sync db user_id audio_data whisper_model
      outcome db_commit_raises log_commit_raises now
    { effects := upload_effects ++ r.effects ++
        [if r.ok then Effect.stSuccess r.message else Effect.stError r.message]
      db := r.db }
  else
    { effects := upload_effects ++ [Effect.stError noAudioToTranscribeMsg]
      db := db }

/-! ## Text chunking (cache/core/utils.py, `chunk_text`) -/

/-- `chunk_text`: slices the text into consecutive pieces of `max_chars`
characters.  The Python loop never terminates when `max_chars = 0`; that case
is mapped to `[]` here and every statement about `chunk_text` assumes
`0 < max_chars`. -/
def chunk_text (text : List Char) (max_chars : Nat) : List (List Char) :=
  if _hm : max_chars = 0 then
    []
  else if _ht : text = [] then
    []
  else
    text.take max_chars :: chunk_text (text.drop max_chars) max_chars
termination_by text.length
decreasing_by
  have h1 : 0 < text.length := List.length_pos.mpr _ht
  simp only [List.length_drop]
  omega

/-! ## Helper lemmas -/

/-- Successful catalog lookups only return the three catalog records. -/
lemma planLookup_mem {plan_name : String} {p : PlanDefinition}
    (h : planLookup plan_name = some p) :
    p = freePlan ∨ p = standardPlan ∨ p = premiumPlan := by
  unfold planLookup PLANS at h
  simp only [List.find?, Option.map_eq_some'] at h
  obtain ⟨pair, hfind, hp⟩ := h
  split at hfind
  · cases hfind
    exact Or.inl hp.symm
  · split at hfind
    · cases hfind
      exact Or.inr (Or.inl hp.symm)
    · split at hfind
      · cases hfind
        exact Or.inr (Or.inr hp.symm)
      · exact absurd hfind (by simp)

/-- `get_user_plan` always returns one of the three catalog records. -/
lemma get_user_plan_cases (db : DB) (user_id : Nat) :
    get_user_plan db user_id = freePlan ∨ get_user_plan db user_id = standardPlan ∨
      get_user_plan db user_id = premiumPlan := by
  unfold get_user_plan
  split
  · left; rfl
  · split
    · left; rfl
    · rename_i p hl
      simpa using planLookup_mem hl

/-- Every catalog plan has a positive monthly transcription allowance. -/
lemma transcription_minutes_pos (db : DB) (user_id : Nat) :
    0 < (get_user_plan db user_id).transcription_minutes := by
  rcases get_user_plan_cases db user_id with h | h | h <;>
    rw [h] <;> decide

/-- Unknown plan names are not found in the catalog. -/
lemma planLookup_eq_none {plan_name : String}
    (h1 : plan_name ≠ "free") (h2 : plan_name ≠ "standard")
    (h3 : plan_name ≠ "premium") : planLookup plan_name = none := by
  unfold planLookup PLANS
  simp only [List.find?, Option.map_eq_none']
  have b1 : (("free" : String) == plan_name) = false :=
    beq_eq_false_iff_ne.mpr (Ne.symm h1)
  have b2 : (("standard" : String) == plan_name) = false :=
    beq_eq_false_iff_ne.mpr (Ne.symm h2)
  have b3 : (("premium" : String) == plan_name) = false :=
    beq_eq_false_iff_ne.mpr (Ne.symm h3)
  simp [b1, b2, b3]

/-! ## C1 -/

/-- C1: `PlanManager.get_user_plan` is a total function that returns the free
plan when the user has no active subscription or when the first active
subscription names a plan outside {free, standard, premium}, and otherwise
returns the catalog entry for that plan name. -/
theorem get_user_plan_spec (db : DB) (user_id : Nat) :
    (db.subscriptions.find? (fun s => s.user_id == user_id && s.active) = none →
      get_user_plan db user_id = freePlan)
    ∧ (∀ s, db.subscriptions.find? (fun s => s.user_id == user_id && s.active) = some s →
        (s.plan ≠ "free" → s.plan ≠ "standard" → s.plan ≠ "premium" →
          get_user_plan db user_id = freePlan)
        ∧ (s.plan = "free" → get_user_plan db user_id = freePlan)
        ∧ (s.plan = "standard" → get_user_plan db user_id = standardPlan)
        ∧ (s.plan = "premium" → get_user_plan db user_id = premiumPlan)) := by
  constructor
  · intro h
    unfold get_user_plan
    rw [h]
  · intro s hs
    refine ⟨?_, ?_, ?_, ?_⟩
    · intro h1 h2 h3
      unfold get_user_plan
      rw [hs]
      dsimp only
      rw [planLookup_eq_none h1 h2 h3]
    · intro h
      unfold get_user_plan
      rw [hs]
      dsimp only
      rw [h]
      decide
    · intro h
      unfold get_user_plan
      rw [hs]
      dsimp only
      rw [h]
      decide
    · intro h
      unfold get_user_plan
      rw [hs]
      dsimp only
      rw [h]
      decide

/-- Witness for C1: a user whose single active subscription is "standard"
gets the standard catalog entry, and a user with an active subscription to an
unknown plan name falls back to the free entry. -/
theorem get_user_plan_spec_witness :
    get_user_plan ⟨[⟨1, "standard", true⟩], [], []⟩ 1 = standardPlan
    ∧ get_user_plan ⟨[⟨2, "gold", true⟩], [], []⟩ 2 = freePlan :=
  ⟨((get_user_plan_spec ⟨[⟨1, "standard", true⟩], [], []⟩ 1).2
      ⟨1, "standard", true⟩ (by decide)).2.2.1 rfl,
   ((get_user_plan_spec ⟨[⟨2, "gold", true⟩], [], []⟩ 2).2
      ⟨2, "gold", true⟩ (by decide)).1 (by decide) (by decide) (by decide)⟩

/-! ## C2 -/

/-- C2: `PlanManager.check_transcription_quota` is true exactly when the
count of the user's Transcription rows created since the start of the current
month is strictly below the plan's `transcription_minutes`; it is false at
exactly the allowance, true one below it, and true at zero for every plan. -/
theorem check_transcription_quota_spec (db : DB) (user_id : Nat) (start_of_month : Int) :
    (check_transcription_quota db user_id start_of_month = true ↔
      (db.transcriptions.filter
          (fun t => t.user_id == user_id && start_of_month ≤ t.created_at)).length
        < (get_user_plan db user_id).transcription_minutes)
    ∧ (get_transcription_usage db user_id start_of_month
          = (get_user_plan db user_id).transcription_minutes →
        check_transcription_quota db user_id start_of_month = false)
    ∧ (get_transcription_usage db user_id start_of_month
          = (get_user_plan db user_id).transcription_minutes - 1 →
        check_transcription_quota db user_id start_of_month = true)
    ∧ (get_transcription_usage db user_id start_of_month = 0 →
        check_transcription_quota db user_id start_of_month = true) := by
  have hpos := transcription_minutes_pos db user_id
  unfold check_transcription_quota get_transcription_usage
  refine ⟨by simp [get_transcription_usage], fun h => ?_, fun h => ?_, fun h => ?_⟩
  · simp only [decide_eq_false_iff_not, not_lt]
    omega
  · simp only [decide_eq_true_eq]
    omega
  · simp only [decide_eq_true_eq]
    omega

set_option maxRecDepth 4096 in
/-- Witness for C2: a free-plan user owning exactly 30 rows this month has
exhausted the quota, and a fresh user with no rows has quota. -/
theorem check_transcription_quota_spec_witness :
    check_transcription_quota
        ⟨[], List.replicate 30 ⟨1, "a.wav", 0, "base", "t", 5⟩, []⟩ 1 0 = false
    ∧ check_transcription_quota ⟨[], [], []⟩ 2 0 = true :=
  ⟨(check_transcription_quota_spec
      ⟨[], List.replicate 30 ⟨1, "a.wav", 0, "base", "t", 5⟩, []⟩ 1 0).2.1 (by decide),
   (check_transcription_quota_spec ⟨[], [], []⟩ 2 0).2.2.2 (by decide)⟩

/-! ## C3 -/

/-- C3: `PlanManager.check_file_size_limit` accepts a file size exactly when
it is at most the plan's `max_file_size_mb`; the boundary is inclusive and
every strictly larger size is rejected. -/
theorem check_file_size_limit_spec (db : DB) (user_id : Nat) :
    (∀ file_size_mb : ℚ,
      check_file_size_limit db user_id file_size_mb = true ↔
        file_size_mb ≤ (get_user_plan db user_id).max_file_size_mb)
    ∧ check_file_size_limit db user_id
        (get_user_plan db user_id).max_file_size_mb = true
    ∧ (∀ file_size_mb : ℚ,
        (get_user_plan db user_id).max_file_size_mb < file_size_mb →
          check_file_size_limit db user_id file_size_mb = false) := by
  unfold check_file_size_limit
  refine ⟨fun q => by simp, by simp, fun q hq => ?_⟩
  simp only [decide_eq_false_iff_not, not_le]
  exact hq

/-- Witness for C3: a free-plan user may upload exactly 50 MB but not
50.001 MB. -/
theorem check_file_size_limit_spec_witness :
    check_file_size_limit ⟨[], [], []⟩ 1 50 = true
    ∧ check_file_size_limit ⟨[], [], []⟩ 1 (50 + 1 / 1000) = false :=
  ⟨(check_file_size_limit_spec ⟨[], [], []⟩ 1).1 50 |>.mpr
     (by simp [get_user_plan, freePlan]),
   (check_file_size_limit_spec ⟨[], [], []⟩ 1).2.2 (50 + 1 / 1000)
     (by simp [get_user_plan, freePlan])⟩

/-! ## C4 -/

/-- C4: `PlanManager.check_model_access` is true exactly when the requested
model string is a literal member of the plan's `models` list — plain string
equality, with no case-folding and no tier hierarchy. -/
theorem check_model_access_spec (db : DB) (user_id : Nat) (model : String) :
    check_model_access db user_id model = true ↔
      model ∈ (get_user_plan db user_id).models := by
  unfold check_model_access
  simp

/-- Witness for C4: a free-plan user may use "tiny" but not "TINY" (the
membership test is case-sensitive) and not "small". -/
theorem check_model_access_spec_witness :
    check_model_access ⟨[], [], []⟩ 1 "tiny" = true
    ∧ check_model_access ⟨[], [], []⟩ 1 "TINY" = false
    ∧ check_model_access ⟨[], [], []⟩ 1 "small" = false :=
  ⟨(check_model_access_spec ⟨[], [], []⟩ 1 "tiny").mpr (by decide),
   by decide, by decide⟩

/-! ## C5 -/

/-- C5: `log_user_activity` never propagates an exception: it returns `true`
exactly when the underlying append committed, on success the store gains
exactly the one new `ActivityLogEntry` (other tables untouched), and on any
persistence failure the exception is caught, the function returns `false`,
and the store is left unchanged. -/
theorem log_user_activity_spec (commit_raises : Bool) (db : DB) (user_id : Nat)
    (activity_type : String) (details : Option String) :
    ((log_user_activity commit_raises db user_id activity_type details).2 = true ↔
      commit_raises = false)
    ∧ (commit_raises = false →
        (log_user_activity commit_raises db user_id activity_type details).1 =
          { db with activities :=
              db.activities ++ [{ user_id := user_id
                                  activity_type := activity_type
                                  details := details }] })
    ∧ (commit_raises = true →
        log_user_activity commit_raises db user_id activity_type details
          = (db, false)) := by
  unfold log_user_activity
  cases commit_raises <;> simp

/-- Witness for C5: on a concrete empty store, a successful commit returns
`true` and appends the one entry, and a raising commit returns `false` and
leaves the store empty. -/
theorem log_user_activity_spec_witness :
    (log_user_activity false ⟨[], [], []⟩ 1 "transcription" none).1 =
      ⟨[], [], [{ user_id := 1, activity_type := "transcription", details := none }]⟩
    ∧ log_user_activity true ⟨[], [], []⟩ 1 "transcription" none
        = (⟨[], [], []⟩, false) :=
  ⟨(log_user_activity_spec false ⟨[], [], []⟩ 1 "transcription" none).2.1 rfl,
   (log_user_activity_spec true ⟨[], [], []⟩ 1 "transcription" none).2.2 rfl⟩

/-! ## C6 -/

/-- Counterexample to C6 as stated: on an empty store, recording a
"transcription" activity leaves `count_transcriptions_in_period` at 0, not 1
— the activity log write inserts into `user_activities`, while the count
reads the `transcriptions` table. -/
theorem record_activity_count_counterexample :
    get_transcription_usage
        (log_user_activity false ⟨[], [], []⟩ 1 "transcription" none).1 1 0
      ≠ get_transcription_usage ⟨[], [], []⟩ 1 0 + 1 := by
  decide

/-- C6 amended: recording an activity (of any category, in particular
"transcription") never changes `count_transcriptions_in_period`, whether or
not the commit succeeds; and since the count is a pure function of the store,
repeated reads without further writes agree. -/
theorem record_activity_count_spec (commit_raises : Bool) (db : DB)
    (user_id reader_id : Nat) (details : Option String) (start_of_month : Int) :
    get_transcription_usage
        (log_user_activity commit_raises db user_id "transcription" details).1
        reader_id start_of_month
      = get_transcription_usage db reader_id start_of_month := by
  unfold log_user_activity get_transcription_usage
  cases commit_raises <;> simp

/-! ## C7 -/

/-- Whenever audio bytes are present, `process_transcription_sync` creates
the temp file and calls the engine, whatever the engine outcome and commit
oracles. -/
lemma process_sync_effects (db : DB) (user_id : Nat) (audio_data : List Nat)
    (whisper_model : String) (outcome : WhisperOutcome)
    (db_commit_raises log_commit_raises : Bool) (now : Int)
    (h : audio_data ≠ []) :
    (process_transcription_sync db user_id audio_data whisper_model outcome
        db_commit_raises log_commit_raises now).effects
      = [Effect.tempFileCreated, Effect.engineCalled] := by
  unfold process_transcription_sync
  rw [if_neg h]
  dsimp only
  by_cases he : (transcribe_or_translate_locally "tmp.wav" outcome).error ≠ ""
  · rw [if_pos he]
  · rw [if_neg he]

/-- Counterexample to C7 as stated: a free-plan user (cap 50 MB) uploads a
600 MB file; the claim says no temp file, no engine call, no Transcription
row and no ActivityLogEntry result — but the handler only warns, and once the
button is pressed the transcription runs to completion: the temp file is
created, the engine is called, and one Transcription row and one
ActivityLogEntry are persisted. -/
theorem oversize_upload_counterexample :
    let r := afficher_page_4_upload ⟨[], [], []⟩ 1 600 [0] "base" true
        (WhisperOutcome.success "texte" [] "fr") false false 0 5
    Effect.tempFileCreated ∈ r.effects
    ∧ Effect.engineCalled ∈ r.effects
    ∧ r.db.transcriptions.length = 1
    ∧ r.db.activities.length = 1 := by
  decide

/-- C7 amended: an uploaded file exceeding the plan cap produces a user-facing
warning, but the handler does not short-circuit: if the transcribe button is
pressed, the quota check passes and audio bytes are present, the temp file is
still created and the engine is still called. -/
theorem oversize_upload_spec (db : DB) (user_id : Nat) (file_size_mb : ℚ)
    (audio_data : List Nat) (whisper_model : String) (outcome : WhisperOutcome)
    (db_commit_raises log_commit_raises : Bool) (start_of_month now : Int)
    (hsize : check_file_size_limit db user_id file_size_mb = false) :
    let r := afficher_page_4_upload db user_id file_size_mb audio_data
        whisper_model true outcome db_commit_raises log_commit_raises
        start_of_month now
    Effect.stWarning fileSizeWarningMsg ∈ r.effects
    ∧ (check_transcription_quota db user_id start_of_month = true →
        audio_data ≠ [] →
        Effect.tempFileCreated ∈ r.effects ∧ Effect.engineCalled ∈ r.effects) := by
  intro r
  have hr : r = afficher_page_4_upload db user_id file_size_mb audio_data
      whisper_model true outcome db_commit_raises log_commit_raises
      start_of_month now := rfl
  unfold afficher_page_4_upload at hr
  rw [hsize] at hr
  simp only [Bool.false_eq_true, if_false, not_true, if_neg, ite_false] at hr
  constructor
  · rw [hr]
    split
    · simp
    · split <;> simp
  · intro hq haudio
    rw [hr]
    rw [if_neg (by simp [hq]), if_pos haudio]
    rw [process_sync_effects db user_id audio_data whisper_model outcome
      db_commit_raises log_commit_raises now haudio]
    simp

/-- Witness for C7 (amended): the concrete 600 MB upload of the
counterexample run indeed shows the warning and still reaches the engine. -/
theorem oversize_upload_spec_witness :
    let r := afficher_page_4_upload ⟨[], [], []⟩ 1 600 [0] "base" true
        (WhisperOutcome.success "texte" [] "fr") false false 0 5
    Effect.stWarning fileSizeWarningMsg ∈ r.effects
    ∧ Effect.tempFileCreated ∈ r.effects ∧ Effect.engineCalled ∈ r.effects := by
  have h := oversize_upload_spec ⟨[], [], []⟩ 1 600 [0] "base"
    (WhisperOutcome.success "texte" [] "fr") false false 0 5 (by decide)
  exact ⟨h.1, h.2 (by decide) (by decide)⟩

/-! ## C8 -/

/-- C8: a free-plan user with exactly 30 counted transcriptions this month
who presses the transcribe button is short-circuited with the quota-exceeded
error; the store is unchanged (no new Transcription row, no new
ActivityLogEntry), no temp file is created and the engine is not called. -/
theorem quota_exhausted_spec (db : DB) (user_id : Nat) (file_size_mb : ℚ)
    (audio_data : List Nat) (whisper_model : String) (outcome : WhisperOutcome)
    (db_commit_raises log_commit_raises : Bool) (start_of_month now : Int)
    (hplan : get_user_plan db user_id = freePlan)
    (husage : get_transcription_usage db user_id start_of_month = 30) :
    let r := afficher_page_4_upload db user_id file_size_mb audio_data
        whisper_model true outcome db_commit_raises log_commit_raises
        start_of_month now
    Effect.stError quotaExceededMsg ∈ r.effects
    ∧ r.db = db
    ∧ Effect.tempFileCreated ∉ r.effects
    ∧ Effect.engineCalled ∉ r.effects := by
  intro r
  have hq : check_transcription_quota db user_id start_of_month = false := by
    unfold check_transcription_quota
    rw [husage, hplan]
    decide
  have hr : r = afficher_page_4_upload db user_id file_size_mb audio_data
      whisper_model true outcome db_commit_raises log_commit_raises
      start_of_month now := rfl
  unfold afficher_page_4_upload at hr
  rw [hq] at hr
  simp only [Bool.false_eq_true, not_false_iff, if_true, not_true, if_false,
    ite_false, ite_true] at hr
  rw [hr]
  by_cases hs : check_file_size_limit db user_id file_size_mb = true
  · simp [hs]
  · simp [hs]

set_option maxRecDepth 4096 in
/-- Witness for C8: a user with no subscription (hence the free plan) and 30
Transcription rows this month gets the quota error and an unchanged store. -/
theorem quota_exhausted_spec_witness :
    let r := afficher_page_4_upload
        ⟨[], List.replicate 30 ⟨1, "a.wav", 0, "base", "t", 5⟩, []⟩ 1 10 [0]
        "base" true (WhisperOutcome.success "txt" [] "fr") false false 0 6
    Effect.stError quotaExceededMsg ∈ r.effects
    ∧ r.db = ⟨[], List.replicate 30 ⟨1, "a.wav", 0, "base", "t", 5⟩, []⟩ := by
  have h := quota_exhausted_spec
    ⟨[], List.replicate 30 ⟨1, "a.wav", 0, "base", "t", 5⟩, []⟩ 1 10 [0]
    "base" (WhisperOutcome.success "txt" [] "fr") false false 0 6
    rfl (by decide)
  exact ⟨h.1, h.2.1⟩

/-! ## C9 -/

/-- Character count of the SSL error prefix. -/
lemma sslErrorPrefix_length : sslErrorPrefix.length = 129 := rfl

/-- Any message starting with the SSL prefix differs from every string
shorter than the prefix. -/
lemma ssl_message_ne {m : String} (hm : m.length < 129) (details : String) :
    sslErrorPrefix ++ details ≠ m := by
  intro h
  have hl := congrArg String.length h
  rw [String.length_append, sslErrorPrefix_length] at hl
  omega

/-- C9: when the Whisper call raises an SSL error during model load,
`process_transcription_sync` fails with the SSL processing-error message —
a message distinct from the quota-exceeded, empty-input and file-size
messages — and the store is untouched: no Transcription row (and no activity
entry) is created for the failed attempt. -/
theorem ssl_error_spec (db : DB) (user_id : Nat) (audio_data : List Nat)
    (whisper_model : String) (details : String)
    (db_commit_raises log_commit_raises : Bool) (now : Int)
    (haudio : audio_data ≠ []) :
    let r := process_transcription_sync db user_id audio_data whisper_model
        (WhisperOutcome.raisesSSLError details) db_commit_raises
        log_commit_raises now
    r.ok = false
    ∧ r.message = sslErrorPrefix ++ details
    ∧ r.db = db
    ∧ r.message ≠ quotaExceededMsg
    ∧ r.message ≠ noAudioMsg
    ∧ r.message ≠ fileSizeWarningMsg := by
  intro r
  have hne : (transcribe_or_translate_locally "tmp.wav"
      (WhisperOutcome.raisesSSLError details)).error ≠ "" := by
    show sslErrorPrefix ++ details ≠ ""
    exact ssl_message_ne (by decide) details
  have hr : r = { effects := [Effect.tempFileCreated, Effect.engineCalled]
                  db := db, ok := false
                  message := sslErrorPrefix ++ details } := by
    show process_transcription_sync db user_id audio_data whisper_model
        (WhisperOutcome.raisesSSLError details) db_commit_raises
        log_commit_raises now = _
    unfold process_transcription_sync
    rw [if_neg haudio]
    dsimp only
    rw [if_pos hne]
    rfl
  rw [hr]
  refine ⟨rfl, rfl, rfl, ?_, ?_, ?_⟩
  · exact ssl_message_ne (by decide) details
  · exact ssl_message_ne (by decide) details
  · exact ssl_message_ne (by decide) details

/-- Witness for C9: a concrete SSL failure on a one-byte upload of a fresh
user leaves the store empty and reports the SSL message. -/
theorem ssl_error_spec_witness :
    let r := process_transcription_sync ⟨[], [], []⟩ 1 [0] "base"
        (WhisperOutcome.raisesSSLError "cert") false false 5
    r.ok = false
    ∧ r.message = sslErrorPrefix ++ "cert"
    ∧ r.db = ⟨[], [], []⟩
    ∧ r.message ≠ quotaExceededMsg := by
  have h := ssl_error_spec ⟨[], [], []⟩ 1 [0] "base" "cert" false false 5
    (by decide)
  exact ⟨h.1, h.2.1, h.2.2.1, h.2.2.2.1⟩

/-! ## C10 -/

/-- C10: for every text and every positive `max_chars`, the chunks returned
by `chunk_text` concatenate back to the text in order, every chunk has length
at most `max_chars`, every chunk is non-empty, and the chunk list is empty
exactly when the text is. -/
theorem chunk_text_spec (text : List Char) (max_chars : Nat) (hm : 0 < max_chars) :
    (chunk_text text max_chars).flatten = text
    ∧ (∀ c ∈ chunk_text text max_chars, c.length ≤ max_chars ∧ c ≠ [])
    ∧ (chunk_text text max_chars = [] ↔ text = []) := by
  induction text, max_chars using chunk_text.induct with
  | case1 text => omega
  | case2 mc h1 =>
    refine ⟨by simp [chunk_text], by simp [chunk_text], by simp [chunk_text]⟩
  | case3 text mc h1 h2 ih =>
    have hrec := ih hm
    rw [chunk_text]
    simp only [dif_neg h1, dif_neg h2]
    refine ⟨?_, ?_, ?_⟩
    · simp only [List.flatten_cons, hrec.1, List.take_append_drop]
    · intro c hc
      rcases List.mem_cons.mp hc with h | h
      · subst h
        constructor
        · exact List.length_take_le mc text
        · intro hnil
          have := congrArg List.length hnil
          simp only [List.length_take, List.length_nil] at this
          have hl : 0 < text.length := List.length_pos.mpr h2
          omega
      · exact hrec.2.1 c h
    · constructor
      · intro h
        exact absurd h (List.cons_ne_nil _ _)
      · intro h
        exact absurd h h2

/-- Witness for C10: chunking a five-character text with `max_chars = 2`
concatenates back to the text, and the concrete chunk list is the expected
one. -/
theorem chunk_text_spec_witness :
    0 < 2
    ∧ (chunk_text ['a', 'b', 'c', 'd', 'e'] 2).flatten = ['a', 'b', 'c', 'd', 'e']
    ∧ chunk_text ['a', 'b', 'c', 'd', 'e'] 2 = [['a', 'b'], ['c', 'd'], ['e']] :=
  ⟨by decide,
   (chunk_text_spec ['a', 'b', 'c', 'd', 'e'] 2 (by decide)).1,
   by simp [chunk_text]⟩

end TranscriptFlow
